import Mathlib

/-
Verification development for the autolysis data-analysis pipeline
(src/autolysis.py). The Python pipeline is shallowly embedded:

* pandas DataFrames become a value type of named, typed columns holding
  optional rational cells (NaN is Cell.null);
* the analyzer (analyze_data), the keyword-driven refinement loop
  (refine_analysis_with_llm), the chart renderer (visualize_data) and the
  report assembler (create_readme) become pure Lean functions over that type;
* external collaborators are parameters: the completion endpoint is a
  response stream (Nat → String, the response to the n-th request of the
  run), sklearn KMeans and PCA fits are oracle functions (Option encodes a
  raised-and-caught exception);
* Pearson correlation and the 3-sigma outlier rule involve square roots,
  so every threshold comparison is embedded in its exact squared rational
  form: for s = sqrt v with v ≥ 0, a < 3*s iff a^2 < 9*v when a ≥ 0.
-/

namespace Autolysis

/-! ## String helpers (Python lower / substring / os.path helpers) -/

/-- ASCII lowering of one character, as Python str.lower acts on ASCII. -/
def charLower (c : Char) : Char :=
  if 65 ≤ c.toNat ∧ c.toNat ≤ 90 then Char.ofNat (c.toNat + 32) else c

/-- Does the first list start the second one? -/
def startsWithL : List Char → List Char → Bool
  | [], _ => true
  | _ :: _, [] => false
  | a :: as, b :: bs => a == b && startsWithL as bs

/-- Does the needle occur contiguously inside the haystack? -/
def occursIn (needle : List Char) : List Char → Bool
  | [] => needle.isEmpty
  | c :: rest => startsWithL needle (c :: rest) || occursIn needle rest

/-- Python `needle in hay.lower()` where the needle is also lowered
(the literal needles in the source are already lower case). -/
def containsCI (needle hay : String) : Bool :=
  occursIn (needle.data.map charLower) (hay.data.map charLower)

/-- Tail of a character list after the last slash, accumulator form. -/
def lastSegment : List Char → List Char → List Char
  | [], acc => acc.reverse
  | c :: cs, acc => if c = '/' then lastSegment cs [] else lastSegment cs (c :: acc)

/-- os.path.basename for slash-separated paths. -/
def basename (p : String) : String := String.mk (lastSegment p.data [])

/-- Drop the extension after the last dot, if any dot is present. -/
def removeExt (s : List Char) : List Char :=
  match s.reverse.span (fun c => decide (c ≠ '.')) with
  | (_, []) => s
  | (_, _ :: rest) => rest.reverse

/-- Base name of a path without its extension, as
os.path.splitext(os.path.basename(p))[0] behaves on ordinary file names. -/
def splitextBase (p : String) : String := String.mk (removeExt (basename p).data)

/-! ## Rational statistics helpers -/

/-- Arithmetic mean of a list of rationals (0 on the empty list; callers
guard on nonemptiness exactly where pandas would produce NaN). -/
def qmean (l : List ℚ) : ℚ := l.sum / (l.length : ℚ)

/-- Sum of squared deviations from the mean. -/
def sqDevSum (l : List ℚ) : ℚ := (l.map (fun x => (x - qmean l) ^ 2)).sum

/-- Minimum of a rational list. -/
def qminL (l : List ℚ) : Option ℚ :=
  l.foldl (fun acc x => match acc with | none => some x | some m => some (min m x)) none

/-- Maximum of a rational list. -/
def qmaxL (l : List ℚ) : Option ℚ :=
  l.foldl (fun acc x => match acc with | none => some x | some m => some (max m x)) none

/-! ## Data model: cells, columns, frames -/

/-- One cell of a loaded frame: a numeric value, a text value, or a
missing value (NaN / None in pandas). -/
inductive Cell where
  | num (q : ℚ)
  | str (s : String)
  | null
deriving DecidableEq, Repr

/-- Numeric payload of a cell, if any. -/
def Cell.toNum? : Cell → Option ℚ
  | Cell.num q => some q
  | _ => none

/-- Column dtype as pandas infers it: numeric or everything else. -/
inductive Dtype where
  | numeric
  | object
deriving DecidableEq, Repr

/-- Boolean test for the numeric dtype. -/
def Dtype.isNumeric : Dtype → Bool
  | Dtype.numeric => true
  | Dtype.object => false

/-- A named pandas column with its dtype and cells in row order. -/
structure Column where
  name : String
  dtype : Dtype
  cells : List Cell
deriving DecidableEq, Repr

/-- Non-missing numeric values of a column, in row order (pandas skipna). -/
def Column.nums (c : Column) : List ℚ := c.cells.filterMap Cell.toNum?

/-- Count of non-missing numeric values. -/
def Column.count (c : Column) : Nat := c.nums.length

/-- Count of missing cells, as df.isnull().sum() counts them per column. -/
def Column.nullCount (c : Column) : Nat :=
  c.cells.countP (fun x => decide (x = Cell.null))

/-- Column mean over non-missing values. -/
def Column.colMean (c : Column) : ℚ := qmean c.nums

/-- Sample variance (ddof = 1, the pandas std default, squared); 0 stands
for the undefined (NaN) std of fewer than two observations, and every
consumer first checks 2 ≤ count. -/
def Column.sampleVar (c : Column) : ℚ :=
  if 2 ≤ c.count then sqDevSum c.nums / ((c.count : ℚ) - 1) else 0

/-- A loaded pandas DataFrame: columns in order plus the row count. -/
structure DataFrame where
  cols : List Column
  nrows : Nat
deriving DecidableEq, Repr

/-- df.select_dtypes(include=[np.number]): the numeric columns in order. -/
def DataFrame.numericCols (df : DataFrame) : List Column :=
  df.cols.filter (fun c => c.dtype.isNumeric)

/-! ## Outlier detection (analyze_data line 79)

Embeds `np.abs(numeric_data - numeric_data.mean()) > 3 * numeric_data.std()`
cellwise, then `.any(axis=1)` row selection.  A NaN cell compares False;
a column with fewer than two observations has NaN std, so every
comparison in it is False.  The comparison |x - mean| > 3*std is embedded
as its exact square (x - mean)^2 > 9*sampleVar. -/

/-- Cellwise 3-sigma flag for column c at row i. -/
def devFlag (c : Column) (i : Nat) : Bool :=
  match c.cells.get? i with
  | some (Cell.num x) =>
      decide (2 ≤ c.count) && decide (9 * c.sampleVar < (x - c.colMean) ^ 2)
  | _ => false

/-- Row labels of the outlier rows, in row order: rows where at least one
numeric column flags. -/
def outlierIdx (df : DataFrame) : List Nat :=
  (List.range df.nrows).filter (fun i => df.numericCols.any (fun c => devFlag c i))

/-- Specification-level reading of the flag: row i holds a numeric value
in column c that lies more than three (sample) standard deviations from
the column mean; the std must be defined, i.e. at least two observations. -/
def Deviates (c : Column) (i : Nat) : Prop :=
  ∃ x, c.cells.get? i = some (Cell.num x) ∧
    2 ≤ c.count ∧ 9 * c.sampleVar < (x - c.colMean) ^ 2

/-! ## Pearson correlation (analyze_data lines 86 and 90-93)

pandas DataFrame.corr computes pairwise-complete Pearson correlations.
corr(x, y) = sxy / sqrt(sxx * syy) with sxy = n*Σxy - Σx*Σy and so on;
a CorrEntry stores these exact rational invariants, and threshold tests
against 0.8 are done in squared form.  A zero sxx or syy is the pandas
NaN correlation of a constant (or single-observation) column. -/

/-- Keep a cell pair only when both carry numeric values. -/
def pairCell (p : Cell × Cell) : Option (ℚ × ℚ) :=
  match p.1.toNum?, p.2.toNum? with
  | some x, some y => some (x, y)
  | _, _ => none

/-- Rows where both columns are non-missing, paired (pairwise deletion). -/
def pairedVals (c d : Column) : List (ℚ × ℚ) :=
  (c.cells.zip d.cells).filterMap pairCell

/-- Exact rational invariants of one correlation-matrix entry. -/
structure CorrEntry where
  npairs : Nat
  sxy : ℚ
  sxx : ℚ
  syy : ℚ
deriving DecidableEq, Repr

/-- Correlation-matrix entry for a pair of columns. -/
def corrEntry (c d : Column) : CorrEntry :=
  let ps := pairedVals c d
  let n : ℚ := (ps.length : ℚ)
  let sx := (ps.map Prod.fst).sum
  let sy := (ps.map Prod.snd).sum
  { npairs := ps.length
    sxy := n * (ps.map (fun p => p.1 * p.2)).sum - sx * sy
    sxx := n * (ps.map (fun p => p.1 ^ 2)).sum - sx ^ 2
    syy := n * (ps.map (fun p => p.2 ^ 2)).sum - sy ^ 2 }

/-- Does the Pearson correlation exceed 0.8?  Exact rational form of
sxy / sqrt(sxx*syy) > 4/5: both variances positive (otherwise the pandas
value is NaN and every comparison is False), a positive covariance, and
25*sxy^2 > 16*sxx*syy. -/
def CorrEntry.exceeds (e : CorrEntry) : Bool :=
  decide (2 ≤ e.npairs) && decide (0 < e.sxx) && decide (0 < e.syy) &&
    decide (0 < e.sxy) && decide (16 * e.sxx * e.syy < 25 * e.sxy ^ 2)

/-- Names of numeric columns whose correlation with c exceeds 0.8:
`corr_matrix[col][corr_matrix[col] > 0.8].index.tolist()`. -/
def highCorrList (df : DataFrame) (c : Column) : List String :=
  df.numericCols.filterMap (fun d =>
    if (corrEntry d c).exceeds then some d.name else none)

/-- The high_correlation value: one (column, matching columns) pair per
numeric column, in column order. -/
def highCorrelation (df : DataFrame) : List (String × List String) :=
  df.numericCols.map (fun c => (c.name, highCorrList df c))

/-- df.corr(numeric_only=True).to_dict(): numeric columns crossed with
numeric columns, each entry in exact rational form. -/
def corrMatrix (df : DataFrame) : List (String × List (String × CorrEntry)) :=
  df.numericCols.map (fun c =>
    (c.name, df.numericCols.map (fun d => (d.name, corrEntry c d))))

/-! ## describe, dtypes, t-test keys (analyze_data lines 83-103) -/

/-- Stat rows of pandas describe for one column.  describe is an external
pandas routine; it is modelled by its non-missing count plus mean/min/max
for numeric columns and the distinct-count for object columns (its std and
percentile rows are real-valued interpolations outside the rational cell
model, and nothing downstream reads them). -/
def describeCol (c : Column) : List (String × Cell) :=
  if c.dtype.isNumeric then
    [("count", Cell.num (c.count : ℚ)),
     ("mean", if 1 ≤ c.count then Cell.num c.colMean else Cell.null),
     ("min", match qminL c.nums with | some m => Cell.num m | none => Cell.null),
     ("max", match qmaxL c.nums with | some m => Cell.num m | none => Cell.null)]
  else
    [("count", Cell.num ((c.cells.countP (fun x => decide (x ≠ Cell.null))) : ℚ)),
     ("unique", Cell.num (((c.cells.filter (fun x => decide (x ≠ Cell.null))).dedup.length : ℚ)))]

/-- df.describe(include=all).to_dict(): one entry per column of the frame,
in column order (include=all keeps non-numeric columns). -/
def summaryStatistics (df : DataFrame) : List (String × List (String × Cell)) :=
  df.cols.map (fun c => (c.name, describeCol c))

/-- Per-column missing-value counts, df.isnull().sum().to_dict(). -/
def missingCounts (df : DataFrame) : List (String × Nat) :=
  df.cols.map (fun c => (c.name, c.nullCount))

/-- String form of a dtype, df.dtypes.astype(str). -/
def dtypeName : Dtype → String
  | Dtype.numeric => "float64"
  | Dtype.object => "object"

/-- Keys of the unordered column pairs, source f-string `a vs b`. -/
def allPairs : List String → List String
  | [] => []
  | x :: xs => xs.map (fun y => x ++ " vs " ++ y) ++ allPairs xs

/-- Keys of the t_tests dict: every i < j pair of numeric columns. The
t-statistics themselves are scipy outputs outside the rational model and
no consumer reads them. -/
def tTestKeys (df : DataFrame) : List String :=
  allPairs (df.numericCols.map Column.name)

/-! ## Complete numeric rows (dropna) and the AnalysisResult -/

/-- Is the cell of column c at row i a present numeric value? -/
def isNumAt (c : Column) (i : Nat) : Bool :=
  match c.cells.get? i with
  | some (Cell.num _) => true
  | _ => false

/-- Is row i free of missing values across the numeric columns? -/
def rowComplete (df : DataFrame) (i : Nat) : Bool :=
  df.numericCols.all (fun c => isNumAt c i)

/-- Indices of the complete numeric rows, `numeric_data.dropna()`. -/
def completeIdx (df : DataFrame) : List Nat :=
  (List.range df.nrows).filter (fun i => rowComplete df i)

/-- Numeric values of row i across numeric columns, in column order. -/
def rowVals (df : DataFrame) (i : Nat) : List ℚ :=
  df.numericCols.filterMap (fun c =>
    match c.cells.get? i with
    | some (Cell.num x) => some x
    | _ => none)

/-- The matrix handed to KMeans and PCA: complete numeric rows only. -/
def completeRows (df : DataFrame) : List (List ℚ) :=
  (completeIdx df).map (rowVals df)

/-- PCA output shape as the source stores it; the numbers are sklearn
outputs delivered by an oracle parameter. -/
structure PCAInfo where
  explained_var_ratios : List ℚ
  components : List (List ℚ)
  transformed_data : List (List ℚ)
deriving DecidableEq, Repr

/-- The AnalysisResult dict built by analyze_data and mutated in place by
the refinement loop.  The first six fields are the keys of the dict
literal plus the immediately-added high_correlation; the Option fields
are the keys that are present only conditionally. -/
structure Analysis where
  summary_statistics : List (String × List (String × Cell))
  missing_values : List (String × Nat)
  data_types : List (String × String)
  correlation_matrix : List (String × List (String × CorrEntry))
  outliers : List Nat
  high_correlation : List (String × List String)
  t_tests : Option (List String)
  clusters : Option (List Nat)
  pca : Option PCAInfo
deriving Repr

/-- The six keys the spec declares mandatory, in dict insertion order. -/
def mandatoryKeys : List String :=
  ["summary_statistics", "missing_values", "data_types",
   "correlation_matrix", "outliers", "high_correlation"]

/-- Keys of the analysis dict, in insertion order: the dict literal keys
and high_correlation always, then each conditional key when present. -/
def Analysis.keys (a : Analysis) : List String :=
  mandatoryKeys
    ++ (match a.t_tests with | some _ => ["t_tests"] | none => [])
    ++ (match a.clusters with | some _ => ["clusters"] | none => [])
    ++ (match a.pca with | some _ => ["pca"] | none => [])

/-- analyze_data (src/autolysis.py lines 67-124).  km models
KMeans(n_clusters=3, random_state=42).fit on the complete numeric rows
and pcaF models PCA(n_components=2).fit_transform on the same rows; a
none result is a raised exception that the source catches and logs,
leaving the key absent. -/
def analyze_data (km : List (List ℚ) → Option (List Nat))
    (pcaF : List (List ℚ) → Option PCAInfo) (df : DataFrame) : Analysis :=
  { summary_statistics := summaryStatistics df
    missing_values := missingCounts df
    data_types := df.cols.map (fun c => (c.name, dtypeName c.dtype))
    correlation_matrix := corrMatrix df
    outliers := outlierIdx df
    high_correlation := highCorrelation df
    t_tests := if 2 ≤ df.numericCols.length then some (tTestKeys df) else none
    clusters := km (completeRows df)
    pca := pcaF (completeRows df) }

/-! ## Mean imputation (refinement missing-values branch, line 198)

`df.fillna(df.mean()).isnull().sum().to_dict()`: df.mean() is the Series
of per-numeric-column means over non-missing values, so fillna fills only
numeric columns, and a column whose mean is itself NaN (no observations)
is left unfilled; non-numeric columns are untouched.  fillna returns a
derived copy, so the imputed frame is a separate value. -/

/-- fillna applied to one column with the mean of that column. -/
def imputeCol (c : Column) : Column :=
  if c.dtype.isNumeric ∧ 1 ≤ c.count then
    { c with cells := c.cells.map (fun x =>
        match x with
        | Cell.null => Cell.num c.colMean
        | y => y) }
  else c

/-- The derived copy df.fillna(df.mean()). -/
def imputedFrame (df : DataFrame) : DataFrame :=
  { cols := df.cols.map imputeCol, nrows := df.nrows }

/-! ## Feature scaling (refinement clustering branch, lines 202-205)

sklearn StandardScaler: per feature, subtract the population mean and
divide by the population standard deviation, with a zero deviation
replaced by one.  The scaled values are real (square roots), so the
scaled matrix lives in ℝ; the 4-cluster KMeans fit on it is an oracle. -/

/-- Values of feature j across the rows of a numeric matrix. -/
def colValsOf (data : List (List ℚ)) (j : Nat) : List ℚ :=
  data.filterMap (fun r => r.get? j)

/-- Population variance (ddof = 0, the StandardScaler convention). -/
def popVar (l : List ℚ) : ℚ := sqDevSum l / (l.length : ℚ)

/-- StandardScaler().fit_transform on a numeric matrix. -/
noncomputable def standardScale (data : List (List ℚ)) : List (List ℝ) :=
  data.map (fun row =>
    row.enum.map (fun p =>
      let col := colValsOf data p.1
      let v := popVar col
      ((p.2 : ℝ) - (qmean col : ℝ)) / (if v = 0 then 1 else Real.sqrt (v : ℝ))))

/-! ## Refinement loop (refine_analysis_with_llm, lines 186-239)

The completion endpoint is abstracted as a response stream
resp : Nat → String giving the text of the n-th request of the run
(request 0 is the initial narrative request made on the unrefined
analysis with an empty chart list); this covers every possible remote
behaviour, including empty strings for failed calls.  km4 models
KMeans(n_clusters=4, random_state=42).fit on the scaled matrix.
The visualization branch saves chart files without appending them to any
chart list; the saved paths are collected so theorems can speak about
every chart produced during a run. -/

/-- Mutable state of the pipeline: the loaded frame and the analysis dict. -/
structure RunState where
  df : DataFrame
  analysis : Analysis

/-- Chart files saved by the more-visualizations branch: one histogram per
numeric column, a scatter of the first two numeric columns when there are
two, and a pairplot when the frame has at most 1000 rows.  The paths use
the dataset name exactly as the source interpolates it. -/
def refineVisualizationCharts (df : DataFrame) (datasetName : String) : List String :=
  (df.numericCols.map (fun c => datasetName ++ "_histogram_" ++ c.name ++ ".png"))
    ++ (match df.numericCols with
        | a :: b :: _ =>
          [datasetName ++ "_scatter_" ++ a.name ++ "_vs_" ++ b.name ++ ".png"]
        | _ => [])
    ++ (if df.nrows ≤ 1000 then [datasetName ++ "_pairplot.png"] else [])

/-- One iteration body of the refinement loop: the keyword dispatch in
source priority order, returning the updated state and the chart files
saved by this round. -/
noncomputable def refineRound (km4 : Nat → List (List ℝ) → List Nat)
    (datasetName : String) (feedback : String) (s : RunState) :
    RunState × List String :=
  if containsCI "focus on missing values" feedback then
    ({ df := s.df
       analysis := { s.analysis with missing_values := missingCounts (imputedFrame s.df) } },
     [])
  else if containsCI "improve clustering" feedback then
    ({ df := s.df
       analysis := { s.analysis with
         clusters := some (km4 4 (standardScale (completeRows s.df))) } },
     [])
  else if containsCI "more visualizations" feedback then
    (s, refineVisualizationCharts s.df datasetName)
  else
    (s, [])

/-- The `for iteration in range(3)` loop: k is the index of the next
request to the completion endpoint, the fuel is the remaining iteration
count, fb the feedback text driving the current round.  Returns the final
state, the indices of the fresh feedback requests issued (one at the end
of every round), and the chart files saved. -/
noncomputable def refineIterS (resp : Nat → String) (km4 : Nat → List (List ℝ) → List Nat)
    (datasetName : String) : Nat → Nat → String → RunState →
    RunState × List Nat × List String
  | _, 0, _, s => (s, [], [])
  | k, Nat.succ n, fb, s =>
    let r := refineRound km4 datasetName fb s
    let rest := refineIterS resp km4 datasetName (k + 1) n (resp k) r.1
    (rest.1, k :: rest.2.1, r.2 ++ rest.2.2)

/-- refine_analysis_with_llm: the initial feedback is request 0 (the
narrative request on the unrefined analysis with no charts), then exactly
three refinement iterations run, each ending with a fresh request. -/
noncomputable def refine_analysis_with_llm (resp : Nat → String)
    (km4 : Nat → List (List ℝ) → List Nat) (df : DataFrame) (a : Analysis)
    (datasetName : String) : RunState × List Nat × List String :=
  refineIterS resp km4 datasetName 1 3 (resp 0) { df := df, analysis := a }

/-! ## Chart renderer and report assembler (visualize_data, create_readme) -/

/-- visualize_data (lines 241-290) on its success path: correlation
heatmap, missing-values heatmap, one distribution histogram for each of
the first five numeric columns, and a pairplot when more than one numeric
column exists; os.path.join is slash concatenation.  A matplotlib
exception would truncate this list, which only shortens the produced
charts of a run. -/
def visualize_data (df : DataFrame) (folderName : String) : List String :=
  [folderName ++ "/correlation_heatmap.png",
   folderName ++ "/missing_values_heatmap.png"]
    ++ ((df.numericCols.take 5).map (fun c =>
          folderName ++ "/distribution_" ++ c.name ++ ".png"))
    ++ (if 2 ≤ df.numericCols.length then [folderName ++ "/pairplot.png"] else [])

/-- The README report as create_readme (lines 292-334) assembles it: the
dataset name, the Columns and Rows template fields, the echoed dtype map,
the narrative verbatim, and the relative image reference targets in chart
order (the source writes each as a markdown image line pointing at
./basename). -/
structure Readme where
  dataset : String
  columnsField : Nat
  rowsField : Nat
  dataTypes : List (String × String)
  narrative : String
  imageRefs : List String
deriving Repr

/-- create_readme: the Columns field is len(data_types), the Rows field is
len(summary_statistics), and the image references are ./basename of each
chart in the given list, in order. -/
def create_readme (a : Analysis) (narrative : String) (charts : List String)
    (dfName : String) : Readme :=
  { dataset := dfName
    columnsField := a.data_types.length
    rowsField := a.summary_statistics.length
    dataTypes := a.data_types
    narrative := narrative
    imageRefs := charts.map (fun c => "./" ++ basename c) }

/-- main (lines 336-364): derive the output folder from the CSV file
name, analyze, render the initial charts, run the refinement loop (the
dataset name passed there is the full CSV file name), request the final
narrative (request index 4, after the four loop requests), and assemble
the README from the refined analysis and the initial chart list.  Returns
the README and every chart path produced during the run. -/
noncomputable def main_run (resp : Nat → String)
    (km : List (List ℚ) → Option (List Nat))
    (pcaF : List (List ℚ) → Option PCAInfo)
    (km4 : Nat → List (List ℝ) → List Nat)
    (df : DataFrame) (csvName : String) : Readme × List String :=
  let folderName := splitextBase csvName
  let a0 := analyze_data km pcaF df
  let charts := visualize_data df folderName
  let r := refine_analysis_with_llm resp km4 df a0 csvName
  (create_readme r.1.analysis (resp 4) charts csvName, charts ++ r.2.2)

/-! ## The completion request (request_llm, lines 126-153)

The HTTP transport outcome for the submitted prompt is a parameter: a
network-level exception, or a status plus an optional parsed JSON body
(none is a body json() fails to parse).  The source then evaluates
`response.json().get("choices", [{}])[0].get("message", {}).get("content", "")`
inside the same try block, so every exception along that chain (non-dict
get, empty-list indexing, non-2xx raise_for_status) yields the logged
empty-string fallback. -/

/-- JSON values. -/
inductive Json where
  | null
  | bool (b : Bool)
  | num (q : ℚ)
  | str (s : String)
  | arr (xs : List Json)
  | obj (kvs : List (String × Json))

/-- First-match lookup in a JSON object, Python dict access. -/
def lookupJ : List (String × Json) → String → Option Json
  | [], _ => none
  | (k, v) :: rest, key => if k = key then some v else lookupJ rest key

/-- Python `x.get(key, default)`: defined only on dicts (none is the
AttributeError of calling .get on any other value). -/
def jget (j : Json) (key : String) (d : Json) : Option Json :=
  match j with
  | Json.obj kvs => some ((lookupJ kvs key).getD d)
  | _ => none

/-- Python `x[0]`: the head of a list, the first character of a nonempty
string, and an exception (none) for everything else, including the
KeyError of indexing a string-keyed dict with 0. -/
def index0 : Json → Option Json
  | Json.arr (x :: _) => some x
  | Json.str s =>
    match s.data with
    | c :: _ => some (Json.str (String.mk [c]))
    | [] => none
  | _ => none

/-- The source access chain over the parsed body; none is any exception. -/
def extractContent (j : Json) : Option Json :=
  (jget j "choices" (Json.arr [Json.obj []])).bind (fun cs =>
    (index0 cs).bind (fun c0 =>
      (jget c0 "message" (Json.obj [])).bind (fun m =>
        jget m "content" (Json.str ""))))

/-- httpx raise_for_status succeeds exactly on 2xx statuses. -/
def is2xx (st : Nat) : Bool := decide (200 ≤ st) && decide (st < 300)

/-- Outcome of httpx.post for one request. -/
inductive HTTPResult where
  | netErr
  | resp (status : Nat) (body : Option Json)

/-- request_llm response handling: the content value on a successful
extraction, the empty string on any failure along the way. -/
def request_llm : HTTPResult → Json
  | HTTPResult.netErr => Json.str ""
  | HTTPResult.resp st body =>
    if is2xx st then
      match body with
      | none => Json.str ""
      | some j =>
        match extractContent j with
        | none => Json.str ""
        | some v => v
    else Json.str ""

/-- The body carries the choices-0-message-content structure with content
value c: the spec-level description of a well-formed completion response. -/
def WFBody (j c : Json) : Prop :=
  ∃ kvs tail ck mkvs,
    j = Json.obj kvs ∧
    lookupJ kvs "choices" = some (Json.arr (Json.obj ck :: tail)) ∧
    lookupJ ck "message" = some (Json.obj mkvs) ∧
    lookupJ mkvs "content" = some c

/-! ## Concrete fixtures used by witnesses and counterexamples -/

/-- KMeans oracle that always fails (exception caught by the source). -/
def kmNone : List (List ℚ) → Option (List Nat) := fun _ => none

/-- PCA oracle that always fails. -/
def pcaNone : List (List ℚ) → Option PCAInfo := fun _ => none

/-- KMeans oracle honouring the one-label-per-sample contract. -/
def kmIdent : List (List ℚ) → Option (List Nat) :=
  fun d => some (d.map (fun _ => 0))

/-- Four-cluster KMeans oracle for the refinement branch. -/
def km4Zero : Nat → List (List ℝ) → List Nat := fun _ _ => []

/-- Response stream that always asks for more visualizations. -/
def respMoreVis : Nat → String := fun _ => "more visualizations"

/-- A frame with one numeric column and two distinct complete values. -/
def dfOne : DataFrame :=
  { cols := [{ name := "x", dtype := Dtype.numeric, cells := [Cell.num 1, Cell.num 2] }]
    nrows := 2 }

/-- A constant numeric column: its self-correlation is the NaN of a zero
variance, so pandas excludes it from its own high-correlation list. -/
def colConst : Column :=
  { name := "x", dtype := Dtype.numeric, cells := [Cell.num 5, Cell.num 5] }

/-- A frame whose single numeric column is constant. -/
def dfConst : DataFrame := { cols := [colConst], nrows := 2 }

/-- The column of dfOne, for membership statements. -/
def colOne : Column :=
  { name := "x", dtype := Dtype.numeric, cells := [Cell.num 1, Cell.num 2] }

/-- A concrete run state over dfOne. -/
def sOne : RunState :=
  { df := dfOne, analysis := analyze_data kmNone pcaNone dfOne }

/-- A well-formed completion response body with content "hello". -/
def bodyOK : Json :=
  Json.obj [("choices",
    Json.arr [Json.obj [("message", Json.obj [("content", Json.str "hello")])]])]

/-! ## Helper lemmas -/

/-- No branch of the refinement dispatch replaces the loaded frame. -/
theorem refineRound_df (km4 : Nat → List (List ℝ) → List Nat) (name fb : String)
    (s : RunState) : ((refineRound km4 name fb s).1).df = s.df := by
  unfold refineRound
  split
  · rfl
  · split
    · rfl
    · split
      · rfl
      · rfl

/-- The refinement loop leaves the loaded frame unchanged for any fuel,
request index, feedback and oracle. -/
theorem refineIterS_df (resp : Nat → String) (km4 : Nat → List (List ℝ) → List Nat)
    (name : String) : ∀ (fuel k : Nat) (fb : String) (s : RunState),
    ((refineIterS resp km4 name k fuel fb s).1).df = s.df := by
  intro fuel
  induction fuel with
  | zero => intro k fb s; rfl
  | succ n ih =>
    intro k fb s
    show ((refineIterS resp km4 name (k + 1) n (resp k)
        (refineRound km4 name fb s).1).1).df = s.df
    rw [ih, refineRound_df]

/-! ## Claim theorems -/

/-- C2: for every response stream (hence every sequence of feedback
texts, empty and error responses included), refine_analysis_with_llm runs
exactly three refinement rounds, each round ending with a fresh feedback
request (requests 1, 2, 3, after the initial request 0), and terminates
after those three rounds with no early exit: the result is literally the
three-fold composition of the round body driven by responses 0, 1, 2. -/
theorem C2_exactly_three_rounds : ∀ (resp : Nat → String)
    (km4 : Nat → List (List ℝ) → List Nat) (df : DataFrame) (a : Analysis)
    (name : String),
    refine_analysis_with_llm resp km4 df a name =
      (let s0 : RunState := { df := df, analysis := a }
       let s1 := (refineRound km4 name (resp 0) s0).1
       let s2 := (refineRound km4 name (resp 1) s1).1
       let s3 := (refineRound km4 name (resp 2) s2).1
       (s3, [1, 2, 3],
         (refineRound km4 name (resp 0) s0).2 ++
           ((refineRound km4 name (resp 1) s1).2 ++
             ((refineRound km4 name (resp 2) s2).2 ++ [])))) := by
  intro resp km4 df a name
  rfl

/-- C3: the analyzer output always carries the six mandatory keys
summary_statistics, missing_values, data_types, correlation_matrix,
outliers and high_correlation, and every refinement round preserves
their presence. -/
theorem C3_mandatory_keys : ∀ (km : List (List ℚ) → Option (List Nat))
    (pcaF : List (List ℚ) → Option PCAInfo) (df : DataFrame)
    (km4 : Nat → List (List ℝ) → List Nat) (name fb : String) (s : RunState),
    mandatoryKeys ⊆ (analyze_data km pcaF df).keys ∧
    mandatoryKeys ⊆ ((refineRound km4 name fb s).1.analysis).keys := by
  intro km pcaF df km4 name fb s
  exact ⟨List.subset_append_left _ _, List.subset_append_left _ _⟩

/-- C3 witness: a mandatory key is present in a concrete analyzer output
and survives a concrete refinement round. -/
theorem C3_mandatory_keys_witness :
    "summary_statistics" ∈ (analyze_data kmNone pcaNone dfOne).keys ∧
    "summary_statistics" ∈ ((refineRound km4Zero "d" "hello" sOne).1.analysis).keys :=
  ⟨(C3_mandatory_keys kmNone pcaNone dfOne km4Zero "d" "hello" sOne).1 (by decide),
   (C3_mandatory_keys kmNone pcaNone dfOne km4Zero "d" "hello" sOne).2 (by decide)⟩

/-- C8: whenever the feedback lacks the missing-values keyword but
contains the improve-clustering keyword (case-insensitively), the round
re-runs KMeans with 4 clusters on the standardized complete numeric rows
and overwrites the clusters entry, leaving everything else unchanged. -/
theorem C8_clustering_branch : ∀ (km4 : Nat → List (List ℝ) → List Nat)
    (name fb : String) (s : RunState),
    containsCI "focus on missing values" fb = false →
    containsCI "improve clustering" fb = true →
    refineRound km4 name fb s =
      ({ df := s.df
         analysis := { s.analysis with
           clusters := some (km4 4 (standardScale (completeRows s.df))) } },
       []) := by
  intro km4 name fb s h1 h2
  simp [refineRound, h1, h2]

/-- C8 witness: the end-to-end scenario feedback from the spec triggers
the clustering branch on a concrete state. -/
theorem C8_clustering_branch_witness :
    refineRound km4Zero "data.csv" "Please improve clustering results" sOne =
      ({ df := sOne.df
         analysis := { sOne.analysis with
           clusters := some (km4Zero 4 (standardScale (completeRows sOne.df))) } },
       []) :=
  C8_clustering_branch km4Zero "data.csv" "Please improve clustering results" sOne
    (by decide) (by decide)

/-- C9: across any number of refinement rounds the loaded frame is left
unchanged, and the missing-values branch derives its counts from the
imputed copy df.fillna(df.mean()) while updating only the missing_values
entry of the analysis. -/
theorem C9_frame_unchanged : ∀ (resp : Nat → String)
    (km4 : Nat → List (List ℝ) → List Nat) (name : String) (k fuel : Nat)
    (fb : String) (s : RunState),
    ((refineIterS resp km4 name k fuel fb s).1).df = s.df ∧
    (∀ (fb2 : String) (s2 : RunState),
      containsCI "focus on missing values" fb2 = true →
      refineRound km4 name fb2 s2 =
        ({ df := s2.df
           analysis := { s2.analysis with
             missing_values := missingCounts (imputedFrame s2.df) } },
         [])) := by
  intro resp km4 name k fuel fb s
  refine ⟨refineIterS_df resp km4 name fuel k fb s, ?_⟩
  intro fb2 s2 h
  simp [refineRound, h]

/-- C9 witness: the missing-values branch equation at a concrete state. -/
theorem C9_frame_unchanged_witness :
    refineRound km4Zero "data.csv" "focus on missing values" sOne =
      ({ df := sOne.df
         analysis := { sOne.analysis with
           missing_values := missingCounts (imputedFrame sOne.df) } },
       []) :=
  (C9_frame_unchanged respMoreVis km4Zero "data.csv" 1 3 "x" sOne).2
    "focus on missing values" sOne (by decide)

/-- C10: the Rows field of the report equals the number of column entries
of the summary_statistics mapping, which is the number of frame columns
covered by describe, not the row count. -/
theorem C10_rows_field : ∀ (km : List (List ℚ) → Option (List Nat))
    (pcaF : List (List ℚ) → Option PCAInfo) (df : DataFrame)
    (narrative : String) (charts : List String) (dfName : String),
    (create_readme (analyze_data km pcaF df) narrative charts dfName).rowsField =
      (analyze_data km pcaF df).summary_statistics.length ∧
    (create_readme (analyze_data km pcaF df) narrative charts dfName).rowsField =
      df.cols.length := by
  intro km pcaF df narrative charts dfName
  exact ⟨rfl, by simp [create_readme, analyze_data, summaryStatistics]⟩

/-- C1 counterexample: in a run whose feedback always asks for more
visualizations, the refinement branch saves a histogram file that the
final report does not reference. -/
theorem C1_counterexample :
    "data.csv_histogram_x.png" ∈
      (main_run respMoreVis kmNone pcaNone km4Zero dfOne "data.csv").2 ∧
    ("./" ++ basename "data.csv_histogram_x.png") ∉
      (main_run respMoreVis kmNone pcaNone km4Zero dfOne "data.csv").1.imageRefs := by
  decide

/-- C1 amended: the report references, as relative image references and
in generation order, exactly the charts of the list produced by the
initial visualization step; the chart files saved by the refinement
visualization branch are never appended to that list. -/
theorem C1_amended_report_refs : ∀ (resp : Nat → String)
    (km : List (List ℚ) → Option (List Nat))
    (pcaF : List (List ℚ) → Option PCAInfo)
    (km4 : Nat → List (List ℝ) → List Nat) (df : DataFrame) (csvName : String),
    (main_run resp km pcaF km4 df csvName).1.imageRefs =
      (visualize_data df (splitextBase csvName)).map (fun c => "./" ++ basename c) := by
  intro resp km pcaF km4 df csvName
  rfl

/-- The cellwise 3-sigma flag is exactly the deviation predicate. -/
theorem devFlag_iff (c : Column) (i : Nat) : devFlag c i = true ↔ Deviates c i := by
  unfold devFlag Deviates
  cases h : c.cells.get? i with
  | none => simp
  | some cell =>
    cases cell with
    | num x => simp
    | str s => simp
    | null => simp

/-- C4: a row index is in the analyzer outlier set iff the row exists and
at least one numeric column holds a value there lying more than three
sample standard deviations from that column mean — the union across
numeric columns, with no joint multivariate criterion; a row all of whose
numeric values are within three standard deviations is not an outlier. -/
theorem C4_outlier_union : ∀ (km : List (List ℚ) → Option (List Nat))
    (pcaF : List (List ℚ) → Option PCAInfo) (df : DataFrame) (i : Nat),
    i ∈ (analyze_data km pcaF df).outliers ↔
      (i < df.nrows ∧ ∃ c ∈ df.numericCols, Deviates c i) := by
  intro km pcaF df i
  show i ∈ outlierIdx df ↔ _
  unfold outlierIdx
  rw [List.mem_filter, List.mem_range]
  simp [List.any_eq_true, devFlag_iff]

/-- C5: when the KMeans oracle obeys the one-label-per-fitted-sample
contract and the fit succeeds, the labels list is as long as the set of
rows whose numeric columns have no missing value, which never exceeds the
row count; with no missing numeric cells at all, there is one label per
row. -/
theorem C5_cluster_label_count : ∀ (km : List (List ℚ) → Option (List Nat))
    (pcaF : List (List ℚ) → Option PCAInfo) (df : DataFrame) (ls : List Nat),
    (∀ d l, km d = some l → l.length = d.length) →
    (analyze_data km pcaF df).clusters = some ls →
    ls.length = (completeIdx df).length ∧
    (completeIdx df).length ≤ df.nrows ∧
    ((∀ c ∈ df.numericCols, c.cells.length = df.nrows ∧
        ∀ x ∈ c.cells, (Cell.toNum? x).isSome = true) →
      ls.length = df.nrows) := by
  intro km pcaF df ls hkm hsome
  have h1 : ls.length = (completeRows df).length := hkm _ ls hsome
  have h2 : (completeRows df).length = (completeIdx df).length := List.length_map _ _
  refine ⟨h1.trans h2, ?_, ?_⟩
  · calc (completeIdx df).length ≤ (List.range df.nrows).length :=
          List.length_filter_le _ _
      _ = df.nrows := List.length_range _
  · intro hfull
    have hall : completeIdx df = List.range df.nrows := by
      unfold completeIdx
      apply List.filter_eq_self.mpr
      intro i hi
      rw [List.mem_range] at hi
      unfold rowComplete
      rw [List.all_eq_true]
      intro c hc
      obtain ⟨hlen, hnum⟩ := hfull c hc
      have hlt : i < c.cells.length := by rw [hlen]; exact hi
      unfold isNumAt
      obtain ⟨cell, hcell⟩ : ∃ cell, c.cells.get? i = some cell := by
        rw [List.get?_eq_get hlt]; exact ⟨_, rfl⟩
      have hs := hnum cell (List.get?_mem hcell)
      rw [hcell]
      cases cell <;> simp [Cell.toNum?] at hs ⊢
    rw [h1.trans h2, hall, List.length_range]

/-- C5 witness: on a frame with two complete numeric rows and a contract-
honouring oracle, the labels list has one entry per row. -/
theorem C5_cluster_label_count_witness : ([0, 0] : List Nat).length = dfOne.nrows :=
  (C5_cluster_label_count kmIdent pcaNone dfOne [0, 0]
      (fun d l h => by
        injection h with h2
        rw [← h2]
        exact List.length_map _ _)
      (by decide)).2.2 (by decide)

/-- Expansion of a sum of squared deviations from an arbitrary center. -/
theorem sum_sq_expand (l : List ℚ) (m : ℚ) :
    (l.map (fun x => (x - m) ^ 2)).sum =
      (l.map (fun x => x ^ 2)).sum - 2 * m * l.sum + (l.length : ℚ) * m ^ 2 := by
  induction l with
  | nil => simp
  | cons x xs ih =>
    simp only [List.map_cons, List.sum_cons, List.length_cons, ih]
    push_cast
    ring

/-- A member of a list of nonnegative images bounds the image sum below. -/
theorem le_sum_of_mem (l : List ℚ) (f : ℚ → ℚ) (h0 : ∀ x ∈ l, 0 ≤ f x)
    {a : ℚ} (ha : a ∈ l) : f a ≤ (l.map f).sum := by
  induction l with
  | nil => cases ha
  | cons x xs ih =>
    rw [List.map_cons, List.sum_cons]
    rcases List.mem_cons.mp ha with h | h
    · subst h
      have hrest : 0 ≤ (xs.map f).sum := by
        apply List.sum_nonneg
        intro y hy
        rcases List.mem_map.mp hy with ⟨z, hz, rfl⟩
        exact h0 z (List.mem_cons_of_mem _ hz)
      linarith
    · have hx : 0 ≤ f x := h0 x (List.mem_cons_self _ _)
      have := ih (fun y hy => h0 y (List.mem_cons_of_mem _ hy)) h
      linarith

/-- The scaled variance invariant n * sum of squares minus square of sum
is positive as soon as one value differs from the mean. -/
theorem sxx_pos (l : List ℚ) (hx : ∃ x ∈ l, x ≠ qmean l) :
    0 < (l.length : ℚ) * (l.map (fun x => x ^ 2)).sum - l.sum ^ 2 := by
  obtain ⟨x0, hx0, hne⟩ := hx
  have hlen : l ≠ [] := by rintro rfl; cases hx0
  have hn : (0 : ℚ) < (l.length : ℚ) := by
    exact_mod_cast List.length_pos.mpr hlen
  have hn0 : (l.length : ℚ) ≠ 0 := ne_of_gt hn
  have hdev : 0 < (l.map (fun x => (x - qmean l) ^ 2)).sum := by
    have h1 := le_sum_of_mem l (fun x => (x - qmean l) ^ 2)
      (fun x _ => sq_nonneg _) hx0
    have hne2 : x0 - qmean l ≠ 0 := sub_ne_zero.mpr hne
    have h2 : 0 < (x0 - qmean l) ^ 2 :=
      lt_of_le_of_ne (sq_nonneg _) (Ne.symm (pow_ne_zero 2 hne2))
    calc (0 : ℚ) < (x0 - qmean l) ^ 2 := h2
      _ ≤ _ := h1
  have key : (l.length : ℚ) * (l.map (fun x => x ^ 2)).sum - l.sum ^ 2 =
      (l.length : ℚ) * (l.map (fun x => (x - qmean l) ^ 2)).sum := by
    rw [sum_sq_expand l (qmean l)]
    unfold qmean
    field_simp
    ring
  rw [key]
  exact mul_pos hn hdev

/-- Pairing a column with itself keeps exactly its numeric values,
duplicated. -/
theorem pairedVals_self (c : Column) :
    pairedVals c c = c.nums.map (fun x => (x, x)) := by
  unfold pairedVals Column.nums
  induction c.cells with
  | nil => rfl
  | cons x xs ih =>
    rw [List.zip_cons_cons, List.filterMap_cons, List.filterMap_cons]
    cases hx : x.toNum? with
    | none => simp [pairCell, hx, ih]
    | some q => simp [pairCell, hx, ih]

/-- The self-entry of the correlation matrix: all three invariants equal
n times the sum of squares minus the squared sum over the column values. -/
theorem corrEntry_self_eq (c : Column) :
    corrEntry c c =
      { npairs := c.nums.length
        sxy := (c.nums.length : ℚ) * (c.nums.map (fun x => x ^ 2)).sum - c.nums.sum ^ 2
        sxx := (c.nums.length : ℚ) * (c.nums.map (fun x => x ^ 2)).sum - c.nums.sum ^ 2
        syy := (c.nums.length : ℚ) * (c.nums.map (fun x => x ^ 2)).sum - c.nums.sum ^ 2 } := by
  unfold corrEntry
  rw [pairedVals_self]
  simp only [List.length_map, List.map_map]
  have h1 : ((fun p : ℚ × ℚ => p.1 * p.2) ∘ fun x : ℚ => (x, x)) = fun x : ℚ => x ^ 2 := by
    funext x
    simp [sq]
  have h2 : ((fun p : ℚ × ℚ => p.1 ^ 2) ∘ fun x : ℚ => (x, x)) = fun x : ℚ => x ^ 2 := rfl
  have h3 : ((fun p : ℚ × ℚ => p.2 ^ 2) ∘ fun x : ℚ => (x, x)) = fun x : ℚ => x ^ 2 := rfl
  have h4 : (Prod.fst ∘ fun x : ℚ => (x, x)) = fun x : ℚ => x := rfl
  have h5 : (Prod.snd ∘ fun x : ℚ => (x, x)) = fun x : ℚ => x := rfl
  rw [h1, h2, h3, h4, h5]
  simp [sq]

/-- C6 counterexample: the constant numeric column of dfConst has two
non-missing values, yet its high-correlation entry is the empty list —
it does not include itself, because its pandas self-correlation is NaN
rather than 1.0. -/
theorem C6_counterexample :
    1 ≤ colConst.count ∧ colConst ∈ dfConst.numericCols ∧
    (analyze_data kmNone pcaNone dfConst).high_correlation = [("x", [])] := by
  refine ⟨by decide, by decide, ?_⟩
  have hnums : colConst.nums = [5, 5] := rfl
  have hself : corrEntry colConst colConst =
      { npairs := 2, sxy := 0, sxx := 0, syy := 0 } := by
    rw [corrEntry_self_eq, hnums]
    simp only [CorrEntry.mk.injEq, List.map_cons, List.map_nil, List.sum_cons,
      List.sum_nil, List.length_cons, List.length_nil]
    norm_num
  have hex : (corrEntry colConst colConst).exceeds = false := by
    rw [hself]
    simp [CorrEntry.exceeds]
  have hcols : dfConst.numericCols = [colConst] := rfl
  have hlist : highCorrList dfConst colConst = [] := by
    unfold highCorrList
    rw [hcols]
    simp [hex]
  show highCorrelation dfConst = [("x", [])]
  unfold highCorrelation
  rw [hcols]
  simp [hlist]
  rfl

/-- C6 amended: every numeric column with at least two non-missing values
and nonzero variance (some value differs from the mean, so the
self-correlation is a defined 1.0 greater than 0.8) appears in its own
high-correlation entry; for constant or fewer-than-two-observation
columns the self-correlation is NaN and the column is absent from its
own list. -/
theorem C6_amended_self_in_list : ∀ (km : List (List ℚ) → Option (List Nat))
    (pcaF : List (List ℚ) → Option PCAInfo) (df : DataFrame) (c : Column),
    c ∈ df.numericCols → 2 ≤ c.count →
    (∃ x ∈ c.nums, x ≠ qmean c.nums) →
    c.name ∈ highCorrList df c ∧
    (c.name, highCorrList df c) ∈ (analyze_data km pcaF df).high_correlation := by
  intro km pcaF df c hc h2 hdev
  have hpos := sxx_pos c.nums hdev
  have hex : (corrEntry c c).exceeds = true := by
    rw [corrEntry_self_eq]
    unfold CorrEntry.exceeds
    simp only [Bool.and_eq_true, decide_eq_true_eq]
    refine ⟨⟨⟨⟨h2, hpos⟩, hpos⟩, hpos⟩, ?_⟩
    nlinarith [hpos]
  constructor
  · unfold highCorrList
    apply List.mem_filterMap.mpr
    exact ⟨c, hc, by simp [hex]⟩
  · show (c.name, highCorrList df c) ∈ highCorrelation df
    unfold highCorrelation
    exact List.mem_map.mpr ⟨c, hc, rfl⟩

/-- C6 amended witness: the non-constant column of dfOne lists itself. -/
theorem C6_amended_self_in_list_witness :
    "x" ∈ highCorrList dfOne colOne ∧
    ("x", highCorrList dfOne colOne) ∈ (analyze_data kmNone pcaNone dfOne).high_correlation :=
  C6_amended_self_in_list kmNone pcaNone dfOne colOne (by decide) (by decide)
    ⟨1, by decide, by
      show (1 : ℚ) ≠ qmean [1, 2]
      unfold qmean
      norm_num⟩

/-- Soundness of the access chain: a successful extraction is either the
empty-string default of a missing piece, or the content of a body that
really carries the full choices-0-message-content structure. -/
theorem extract_sound (j v : Json) (h : extractContent j = some v) :
    v = Json.str "" ∨ WFBody j v := by
  unfold extractContent at h
  rw [Option.bind_eq_some] at h
  obtain ⟨cs, h1, h2⟩ := h
  cases j with
  | null => simp [jget] at h1
  | bool b => simp [jget] at h1
  | num q => simp [jget] at h1
  | str s => simp [jget] at h1
  | arr xs => simp [jget] at h1
  | obj kvs =>
    simp only [jget, Option.some.injEq] at h1
    subst h1
    rw [Option.bind_eq_some] at h2
    obtain ⟨c0, h3, h4⟩ := h2
    rw [Option.bind_eq_some] at h4
    obtain ⟨m, h5, h6⟩ := h4
    cases hc : lookupJ kvs "choices" with
    | none =>
      rw [hc] at h3
      simp only [Option.getD_none, index0, Option.some.injEq] at h3
      subst h3
      simp only [jget, lookupJ, Option.getD_none, Option.some.injEq] at h5
      subst h5
      simp only [jget, lookupJ, Option.getD_none, Option.some.injEq] at h6
      exact Or.inl h6.symm
    | some cv =>
      rw [hc] at h3
      simp only [Option.getD_some] at h3
      cases cv with
      | null => simp [index0] at h3
      | bool b => simp [index0] at h3
      | num q => simp [index0] at h3
      | obj okvs => simp [index0] at h3
      | str s =>
        cases hs : s.data with
        | nil => simp [index0, hs] at h3
        | cons ch chs =>
          simp only [index0, hs, Option.some.injEq] at h3
          subst h3
          simp [jget] at h5
      | arr xs =>
        cases xs with
        | nil => simp [index0] at h3
        | cons c0h tailh =>
          simp only [index0, Option.some.injEq] at h3
          subst h3
          cases c0h with
          | null => simp [jget] at h5
          | bool b => simp [jget] at h5
          | num q => simp [jget] at h5
          | str s2 => simp [jget] at h5
          | arr ys => simp [jget] at h5
          | obj ck =>
            simp only [jget, Option.some.injEq] at h5
            subst h5
            cases hm : lookupJ ck "message" with
            | none =>
              rw [hm] at h6
              simp only [Option.getD_none, jget, lookupJ, Option.some.injEq] at h6
              exact Or.inl h6.symm
            | some mv =>
              rw [hm] at h6
              simp only [Option.getD_some] at h6
              cases mv with
              | null => simp [jget] at h6
              | bool b => simp [jget] at h6
              | num q => simp [jget] at h6
              | str s3 => simp [jget] at h6
              | arr ys => simp [jget] at h6
              | obj mkvs =>
                simp only [jget, Option.some.injEq] at h6
                cases hcon : lookupJ mkvs "content" with
                | none =>
                  rw [hcon] at h6
                  simp only [Option.getD_none] at h6
                  exact Or.inl h6.symm
                | some cval =>
                  rw [hcon] at h6
                  simp only [Option.getD_some] at h6
                  subst h6
                  exact Or.inr ⟨kvs, tailh, ck, mkvs, rfl, hc, hm, hcon⟩

/-- Completeness of the access chain: a well-formed body extracts to its
content value. -/
theorem extract_complete (j c : Json) (h : WFBody j c) : extractContent j = some c := by
  obtain ⟨kvs, tail, ck, mkvs, rfl, h1, h2, h3⟩ := h
  unfold extractContent
  simp [jget, h1, index0, h2, h3]

/-- C7: the completion request returns the first choice message content
on a successful 2xx response whose body carries the expected structure,
and the empty string in every failure mode — network exception, non-2xx
status, unparseable body, or a body lacking the
choices-0-message-content structure — never propagating an exception. -/
theorem C7_llm_fallback : ∀ r : HTTPResult,
    (r = HTTPResult.netErr → request_llm r = Json.str "") ∧
    (∀ st body, r = HTTPResult.resp st body → is2xx st = false →
      request_llm r = Json.str "") ∧
    (∀ st, r = HTTPResult.resp st none → is2xx st = true →
      request_llm r = Json.str "") ∧
    (∀ st j c, r = HTTPResult.resp st (some j) → is2xx st = true → WFBody j c →
      request_llm r = c) ∧
    (∀ st j, r = HTTPResult.resp st (some j) → is2xx st = true →
      (∀ c, ¬ WFBody j c) → request_llm r = Json.str "") := by
  intro r
  refine ⟨?_, ?_, ?_, ?_, ?_⟩
  · rintro rfl; rfl
  · rintro st body rfl h; simp [request_llm, h]
  · rintro st rfl h; simp [request_llm, h]
  · rintro st j c rfl h hwf
    simp [request_llm, h, extract_complete j c hwf]
  · rintro st j rfl h hnot
    cases hE : extractContent j with
    | none => simp [request_llm, h, hE]
    | some v =>
      rcases extract_sound j v hE with h0 | hwf
      · subst h0; simp [request_llm, h, hE]
      · exact absurd hwf (hnot v)

/-- C7 witness: a well-formed 200 response returns its content. -/
theorem C7_llm_fallback_witness :
    request_llm (HTTPResult.resp 200 (some bodyOK)) = Json.str "hello" :=
  (C7_llm_fallback (HTTPResult.resp 200 (some bodyOK))).2.2.2.1 200 bodyOK
    (Json.str "hello") rfl (by decide)
    ⟨[("choices", Json.arr [Json.obj [("message", Json.obj [("content", Json.str "hello")])]])],
     [], [("message", Json.obj [("content", Json.str "hello")])],
     [("content", Json.str "hello")], rfl, rfl, rfl, rfl⟩

end Autolysis
